import Mathlib

/-!
Verification of the follow-checker script (`src/instagram_follow_checker.py`)
against its specification.

The script is sequential glue: load credentials from the environment, log in
(reusing a saved session when possible), fetch the followers and following
collections, diff them as sets, and write text reports.  We embed each
function shallowly:

* Usernames are `String`s; Python's string comparison (lexicographic on code
  points) is `pyLe`, comparing the underlying `List Char` with the
  lexicographic order (Lean `Char`s are unicode scalar values, so `<` on
  `Char` is the code-point order).
* Python's `sorted(set(l))` is `pySortedSet`: deduplicate, then sort.
* The filesystem is `FS`: a list of existing directories and an association
  list from path to file content.  `open(path, "w")` + `writelines` is
  `FS.writeFile`; `os.makedirs(name, exist_ok=True)` is `makedirs`, which
  fails (as CPython does, `FileNotFoundError`) when `name` is the empty
  string; `os.path.dirname` is `dirname`, following `posixpath.dirname`.
* Exceptions are `Except String`; a Python `try/except` is a `match` on the
  `Except` value.
* The external `instagrapi` client is an oracle: a `World` record fixes the
  outcome of every call the script makes (`login_with_env`), and a
  `lookup : String → Except String UserProfile` function fixes the outcome
  of every profile lookup (`fetch_user_details`).  The trace of calls the
  script performs is recorded as a `List Event`.
-/

/-! # Definitions -/

/-! ## Lexicographic order on usernames (Python string comparison) -/

/-- Python's `s1 <= s2` on strings: lexicographic comparison of the code-point
sequences.  `String.data` is the list of characters of the string, and the
`List Char` order is the lexicographic one. -/
def pyLe (a b : String) : Prop := a.data ≤ b.data

instance : DecidableRel pyLe := fun a b => inferInstanceAs (Decidable (a.data ≤ b.data))

instance : IsTotal String pyLe := ⟨fun a b => le_total a.data b.data⟩

instance : IsTrans String pyLe := ⟨fun _ _ _ h1 h2 => le_trans h1 h2⟩

instance : IsAntisymm String pyLe := ⟨fun a b h1 h2 => by
  cases a; cases b
  simp only [pyLe] at h1 h2
  exact congrArg String.mk (le_antisymm h1 h2)⟩

/-- Python's `sorted(set(l))` for a list of strings: the distinct elements of
`l` in ascending lexicographic order. -/
def pySortedSet (l : List String) : List String :=
  List.insertionSort pyLe l.dedup

/-! ## The set comparator (`compare_followers_and_following`, lines 151–155)

The source extracts the username of every fetched follower / following
record, deduplicates into a set, and sorts:

    followers_usernames = sorted({user.username for user in followers.values()})
    following_usernames = sorted({user.username for user in following.values()})
    not_following_back = sorted(set(following_usernames) - set(followers_usernames))
    not_followed_back = sorted(set(followers_usernames) - set(following_usernames))

We model the two inputs as the lists of extracted usernames (possibly with
duplicates); Python's set difference `set(a) - set(b)` keeps the elements of
`a` not in `b`. -/
def compare_followers_and_following (followers following : List String) :
    List String × List String :=
  let followers_usernames := pySortedSet followers
  let following_usernames := pySortedSet following
  let not_following_back :=
    pySortedSet (following_usernames.filter (fun u => u ∉ followers_usernames))
  let not_followed_back :=
    pySortedSet (followers_usernames.filter (fun u => u ∉ following_usernames))
  (not_following_back, not_followed_back)

/-! ## Filesystem model

`FS` is the part of the filesystem the script touches: the set of existing
directories and a path-to-content map for files.  `FS.writeFile` is
`open(path, "w")` followed by writing `content` (an existing file is
overwritten); `FS.readFile` reads a file's content back. -/

structure FS where
  dirs : List String
  files : List (String × String)
deriving DecidableEq

def FS.writeFile (fs : FS) (path content : String) : FS :=
  { fs with files := (path, content) :: fs.files.filter (fun e => e.1 ≠ path) }

def FS.readFile (fs : FS) (path : String) : Option String :=
  (fs.files.find? (fun e => e.1 = path)).map (fun e => e.2)

/-- `os.makedirs(name, exist_ok=True)`.  CPython raises `FileNotFoundError`
when `name` is the empty string (the recursion bottoms out calling
`mkdir('')`); `exist_ok=True` makes an existing directory a no-op.  We record
only the named directory itself (the claims never mention intermediate
ancestors). -/
def makedirs (name : String) (fs : FS) : Except String FS :=
  if name = "" then
    Except.error "FileNotFoundError: [Errno 2] No such file or directory: ''"
  else
    Except.ok { fs with dirs := if name ∈ fs.dirs then fs.dirs else name :: fs.dirs }

/-- `os.path.dirname` (POSIX): everything before the final `/`, with trailing
slashes stripped unless the result is all slashes; the empty string when the
path has no `/` at all. -/
def dirname (p : String) : String :=
  let cs := p.data
  let tail := cs.reverse.takeWhile (fun c => c ≠ '/')
  let head := cs.take (cs.length - tail.length)
  if head.isEmpty then ""
  else if head.all (fun c => c = '/') then ⟨head⟩
  else ⟨(head.reverse.dropWhile (fun c => c = '/')).reverse⟩

/-- The file content produced by `f.writelines(f"{user}\n" for user in usernames)`:
each item followed by a newline, concatenated. -/
def writeLines (usernames : List String) : String :=
  String.join (usernames.map (fun u => u ++ "\n"))

/-- `save_to_file(filename, usernames)` (lines 8–21): ensure the directory
part of `filename` exists, then overwrite `filename` with one username per
line. -/
def save_to_file (filename : String) (usernames : List String) (fs : FS) :
    Except String FS :=
  match makedirs (dirname filename) fs with
  | Except.error e => Except.error e
  | Except.ok fs1 => Except.ok (fs1.writeFile filename (writeLines usernames))

/-! ## The comparator's file-writing run (lines 157–164)

After computing the two sorted difference lists the script runs
`os.makedirs("outputs", exist_ok=True)` and overwrites the two report files.
`run_comparator` is that tail of `compare_followers_and_following`, acting on
the filesystem model. -/

def run_comparator (followers following : List String) (fs : FS) : Except String FS :=
  let r := compare_followers_and_following followers following
  match makedirs "outputs" fs with
  | Except.error e => Except.error e
  | Except.ok fs1 =>
    Except.ok ((fs1.writeFile "outputs/not_following_back.txt" (writeLines r.1)).writeFile
      "outputs/fans.txt" (writeLines r.2))

/-! ## Credentials and login (`get_env_variable`, lines 24–40, and
`login_with_env`, lines 43–82)

The `instagrapi` client and the operating system are an oracle: a `World`
fixes the outcome of each call the function makes.  `Event` records, in
order, the calls performed — network calls (`netLogin`, `netProbe`), session
file operations (`fileLoad`, `fileRemove`, `fileDump`) and the interactive
2FA prompt (`prompt2FA`). -/

inductive Event where
  | fileLoad
  | netLogin
  | netProbe
  | fileRemove
  | prompt2FA
  | fileDump
deriving DecidableEq, Repr

/-- Outcome of the fresh `cl.login(username, password)` call: success, a
`TwoFactorRequired` exception, or any other exception (which propagates). -/
inductive FreshLoginOutcome where
  | ok
  | twoFactorRequired
  | err (msg : String)

/-- The environment and the oracle outcomes of every call `login_with_env`
can make.  `twoFactorLogin = none` means the post-2FA login succeeds;
`some e` means it raises `e` (uncaught). -/
structure World where
  env : String → Option String
  sessionFileExists : Bool
  loadOk : Bool
  sessionLoginOk : Bool
  probeOk : Bool
  fresh : FreshLoginOutcome
  twoFactorLogin : Option String

/-- What `login_with_env` reports on success: whether the saved session was
reused, and whether a session file exists after the call. -/
structure LoginDone where
  usedSavedSession : Bool
  sessionFileAfter : Bool
deriving DecidableEq

/-- `os.getenv(key)` guarded by `if not value: raise ValueError(...)`
(lines 37–40): Python's falsiness makes both an unset variable (`None`) and
one set to the empty string raise. -/
def get_env_variable (env : String → Option String) (key : String) :
    Except String String :=
  match env key with
  | none => Except.error (key ++ " not found in .env")
  | some v => if v = "" then Except.error (key ++ " not found in .env") else Except.ok v

/-- The `try` block of the session-reuse branch (lines 60–65): load the
session file, log in with it, probe the timeline.  Returns the calls made and
whether the block completed without an exception. -/
def attemptSavedSession (w : World) : List Event × Bool :=
  if w.loadOk then
    if w.sessionLoginOk then
      if w.probeOk then ([Event.fileLoad, Event.netLogin, Event.netProbe], true)
      else ([Event.fileLoad, Event.netLogin, Event.netProbe], false)
    else ([Event.fileLoad, Event.netLogin], false)
  else ([Event.fileLoad], false)

/-- The fresh-login tail (lines 71–82): `cl.login`, with a 2FA prompt and
retry when `TwoFactorRequired` is raised; on success the session is dumped to
the session file. -/
def freshLogin (w : World) : List Event × Except String LoginDone :=
  match w.fresh with
  | FreshLoginOutcome.ok =>
    ([Event.netLogin, Event.fileDump], Except.ok ⟨false, true⟩)
  | FreshLoginOutcome.err e => ([Event.netLogin], Except.error e)
  | FreshLoginOutcome.twoFactorRequired =>
    match w.twoFactorLogin with
    | none =>
      ([Event.netLogin, Event.prompt2FA, Event.netLogin, Event.fileDump],
        Except.ok ⟨false, true⟩)
    | some e => ([Event.netLogin, Event.prompt2FA, Event.netLogin], Except.error e)

/-- `login_with_env` (lines 43–82): read both credentials (aborting if either
is missing), try the saved session when its file exists — deleting the file
and falling through to a fresh login if any step of the reuse raises — and
otherwise perform a fresh login. -/
def login_with_env (w : World) : List Event × Except String LoginDone :=
  match get_env_variable w.env "IG_USERNAME" with
  | Except.error e => ([], Except.error e)
  | Except.ok _ =>
    match get_env_variable w.env "IG_PASSWORD" with
    | Except.error e => ([], Except.error e)
    | Except.ok _ =>
      if w.sessionFileExists then
        let a := attemptSavedSession w
        if a.2 then (a.1, Except.ok ⟨true, true⟩)
        else
          let f := freshLogin w
          (a.1 ++ Event.fileRemove :: f.1, f.2)
      else freshLogin w

/-- A credential is missing in Python's sense: unset, or set to `""`. -/
def envMissing (env : String → Option String) (key : String) : Prop :=
  env key = none ∨ env key = some ""

/-- A concrete world for the C3 witness: both credentials set, a session file
present, the load and the login with it succeeding but the validity probe
raising. -/
def sessionFailWorld : World :=
  { env := fun k => if k = "IG_USERNAME" then some "user"
      else if k = "IG_PASSWORD" then some "pass" else none
    sessionFileExists := true
    loadOk := true
    sessionLoginOk := true
    probeOk := false
    fresh := FreshLoginOutcome.ok
    twoFactorLogin := none }

/-! ## Profile enrichment (`fetch_user_details`, lines 85–130)

The per-username lookup `cl.user_info_by_username` is an oracle
`lookup : String → Except String UserProfile`.  The loop body's
`try/except Exception` appears as the `match` on the lookup's result: a
failure contributes a record with the requested username and every metadata
field `None`, plus an entry in the failure accumulator; it never escapes the
loop. -/

structure UserProfile where
  username : String
  full_name : String
  is_private : Bool
  account_type : Nat
  is_verified : Bool
deriving DecidableEq

/-- One element of the returned `user_data` list: the dictionary built for
one username, with `None` (here `Option.none`) metadata on lookup failure. -/
structure UserRecord where
  username : String
  full_name : Option String
  is_private : Option Bool
  account_type : Option Nat
  is_verified : Option Bool
deriving DecidableEq

/-- The `for username in usernames` loop (lines 100–120): accumulates
`user_data` and `failed_users` in input order. -/
def fetchLoop (lookup : String → Except String UserProfile) :
    List String → List UserRecord × List (String × String)
  | [] => ([], [])
  | u :: rest =>
    match lookup u with
    | Except.ok p =>
      (⟨p.username, some p.full_name, some p.is_private, some p.account_type,
        some p.is_verified⟩ :: (fetchLoop lookup rest).1, (fetchLoop lookup rest).2)
    | Except.error e =>
      (⟨u, none, none, none, none⟩ :: (fetchLoop lookup rest).1,
        (u, e) :: (fetchLoop lookup rest).2)

/-- Everything `fetch_user_details` produces: the returned list, the failure
accumulator, the content of `outputs/skipped_users.txt` when it is written
(`none` when no failure occurred, so the file is not written), and the
reported failure count (printed only when failures occurred). -/
structure FetchOutcome where
  user_data : List UserRecord
  failed_users : List (String × String)
  skippedFile : Option String
  reportedCount : Option Nat
deriving DecidableEq

/-- `fetch_user_details` (lines 85–130): run the loop over all usernames,
then, only if some lookup failed, write one `username: error` line per
failure to the fixed failure-log path and report the count.  The result is
in `Except` because the body could in principle raise; the theorems show it
never does. -/
def fetch_user_details (lookup : String → Except String UserProfile)
    (usernames : List String) : Except String FetchOutcome :=
  let r := fetchLoop lookup usernames
  Except.ok
    { user_data := r.1
      failed_users := r.2
      skippedFile :=
        if r.2.isEmpty then none
        else some (String.join (r.2.map (fun p => p.1 ++ ": " ++ p.2 ++ "\n")))
      reportedCount := if r.2.isEmpty then none else some r.2.length }

/-- A concrete lookup oracle for examples: `a` resolves, everything else
raises. -/
def exampleLookup : String → Except String UserProfile := fun u =>
  if u = "a" then Except.ok ⟨"a", "Alice", false, 1, true⟩
  else Except.error "user not found"

/-! # Theorems -/

/-! ## Library of facts about the embedded primitives -/

theorem mem_pySortedSet {x : String} {l : List String} :
    x ∈ pySortedSet l ↔ x ∈ l := by
  unfold pySortedSet
  rw [(List.perm_insertionSort pyLe l.dedup).mem_iff]
  exact List.mem_dedup

theorem pySortedSet_sorted (l : List String) : List.Sorted pyLe (pySortedSet l) :=
  List.sorted_insertionSort pyLe l.dedup

theorem pySortedSet_nodup (l : List String) : (pySortedSet l).Nodup :=
  ((List.perm_insertionSort pyLe l.dedup).nodup_iff).mpr l.nodup_dedup

theorem readFile_writeFile (fs : FS) (path content : String) :
    (fs.writeFile path content).readFile path = some content := by
  simp [FS.writeFile, FS.readFile]

theorem find?_filter_ne (l : List (String × String)) {p q : String} (h : p ≠ q) :
    (l.filter (fun e => e.1 ≠ q)).find? (fun e => e.1 = p) = l.find? (fun e => e.1 = p) := by
  rw [List.find?_filter]
  congr 1
  funext a
  by_cases ha : a.1 = p
  · simp [ha, h]
  · simp [ha]

theorem readFile_writeFile_ne (fs : FS) {p q : String} (c : String) (h : p ≠ q) :
    (fs.writeFile q c).readFile p = fs.readFile p := by
  unfold FS.writeFile FS.readFile
  rw [List.find?_cons_of_neg _ (by simp; exact fun e => h e.symm)]
  rw [find?_filter_ne _ h]

/-- A path without a `/` has an empty `dirname` (POSIX `dirname`). -/
theorem dirname_eq_empty_of_no_slash {p : String} (h : '/' ∉ p.data) :
    dirname p = "" := by
  unfold dirname
  have htake : p.data.reverse.takeWhile (fun c => !decide (c = '/')) = p.data.reverse :=
    List.takeWhile_eq_self_iff.mpr (fun c hc => by
      simp only [Bool.not_eq_true', decide_eq_false_iff_not]
      rintro rfl
      exact h (List.mem_reverse.mp hc))
  simp only [ne_eq, decide_not, htake, List.length_reverse]
  have hlen : p.data.length = p.length := rfl
  simp [hlen]

theorem run_comparator_ok (F G : List String) (fs : FS) :
    ∃ fs1, run_comparator F G fs = Except.ok fs1 ∧
      fs1.readFile "outputs/not_following_back.txt" =
        some (writeLines (compare_followers_and_following F G).1) ∧
      fs1.readFile "outputs/fans.txt" =
        some (writeLines (compare_followers_and_following F G).2) := by
  unfold run_comparator makedirs
  rw [if_neg (by decide : ¬("outputs" : String) = "")]
  refine ⟨_, rfl, ?_, ?_⟩
  · rw [readFile_writeFile_ne _ _ (by decide), readFile_writeFile]
  · exact readFile_writeFile _ _ _

theorem fetchLoop_length (lookup : String → Except String UserProfile)
    (l : List String) : (fetchLoop lookup l).1.length = l.length := by
  induction l with
  | nil => rfl
  | cons u rest ih =>
    unfold fetchLoop
    cases lookup u <;> simp [ih]

theorem fetchLoop_failed_record (lookup : String → Except String UserProfile)
    (l : List String) :
    ∀ (i : Nat) (u : String), l[i]? = some u → (lookup u).isOk = false →
      (fetchLoop lookup l).1[i]? = some (⟨u, none, none, none, none⟩ : UserRecord) := by
  induction l with
  | nil => intro i u h _; simp at h
  | cons v rest ih =>
    intro i u h hfail
    cases i with
    | zero =>
      simp at h
      subst h
      unfold fetchLoop
      cases hl : lookup v with
      | ok p => rw [hl] at hfail; simp [Except.isOk, Except.toBool] at hfail
      | error e => simp
    | succ n =>
      simp at h
      unfold fetchLoop
      cases hl : lookup v <;> simpa using ih n u h hfail

theorem fetchLoop_failed_users (lookup : String → Except String UserProfile)
    (l : List String) :
    (fetchLoop lookup l).2 = l.filterMap
      (fun u => match lookup u with
        | Except.ok _ => none
        | Except.error e => some (u, e)) := by
  induction l with
  | nil => rfl
  | cons u rest ih =>
    unfold fetchLoop
    cases hl : lookup u <;> simp [List.filterMap_cons, hl, ih]

/-! ## The claims -/

/-- C1. For every pair of username lists `F` (followers) and `G` (following),
the comparator's first result is exactly the set difference `G − F` and its
second exactly `F − G`, and both are sorted ascending in the lexicographic
order on strings. -/
theorem compare_followers_and_following_correct (F G : List String) :
    List.Sorted pyLe (compare_followers_and_following F G).1 ∧
    List.Sorted pyLe (compare_followers_and_following F G).2 ∧
    (∀ x, x ∈ (compare_followers_and_following F G).1 ↔ x ∈ G ∧ x ∉ F) ∧
    (∀ x, x ∈ (compare_followers_and_following F G).2 ↔ x ∈ F ∧ x ∉ G) := by
  refine ⟨pySortedSet_sorted _, pySortedSet_sorted _, fun x => ?_, fun x => ?_⟩ <;>
    simp [compare_followers_and_following, mem_pySortedSet, List.mem_filter]

/-- C8. When `F` and `G` have no duplicates, the two comparator results are
disjoint: no username appears in both `G − F` and `F − G`. -/
theorem compare_results_disjoint (F G : List String) (_hF : F.Nodup) (_hG : G.Nodup)
    (x : String) :
    ¬(x ∈ (compare_followers_and_following F G).1 ∧
      x ∈ (compare_followers_and_following F G).2) := by
  rintro ⟨h1, h2⟩
  have := (compare_followers_and_following_correct F G).2.2.1 x |>.mp h1
  have := (compare_followers_and_following_correct F G).2.2.2 x |>.mp h2
  tauto

/-- Witness for C8 at the spec's example: followers `{alice, bob, carol}`,
following `{bob, carol, dave}`. -/
theorem compare_results_disjoint_witness :
    ¬("dave" ∈ (compare_followers_and_following
        ["alice", "bob", "carol"] ["bob", "carol", "dave"]).1 ∧
      "dave" ∈ (compare_followers_and_following
        ["alice", "bob", "carol"] ["bob", "carol", "dave"]).2) :=
  compare_results_disjoint ["alice", "bob", "carol"] ["bob", "carol", "dave"]
    (by decide) (by decide) "dave"

/-- C5. For every target path with a non-trivial directory part that does not
yet exist, `save_to_file` succeeds: it creates the parent directory and
(over)writes the target file with exactly one item per line, each line ending
in a newline.  (A path whose parent is the working directory — no `/` in it —
is the separate bug of C9: its `dirname` is `""`.) -/
theorem save_to_file_creates_parent (filename : String) (usernames : List String)
    (fs : FS) (hparent : dirname filename ≠ "") (hmissing : dirname filename ∉ fs.dirs) :
    ∃ fs1, save_to_file filename usernames fs = Except.ok fs1 ∧
      dirname filename ∈ fs1.dirs ∧
      fs1.readFile filename = some (String.join (usernames.map (fun u => u ++ "\n"))) := by
  unfold save_to_file makedirs
  rw [if_neg hparent, if_neg hmissing]
  refine ⟨_, rfl, ?_, ?_⟩
  · exact List.mem_cons_self _ _
  · exact readFile_writeFile _ _ _

/-- Witness for C5: writing `["alice", "bob"]` to `outputs/report.txt` on an
empty filesystem succeeds, creates `outputs`, and stores one name per line. -/
theorem save_to_file_creates_parent_witness :
    ∃ fs1, save_to_file "outputs/report.txt" ["alice", "bob"] ⟨[], []⟩ = Except.ok fs1 ∧
      dirname "outputs/report.txt" ∈ fs1.dirs ∧
      fs1.readFile "outputs/report.txt" =
        some (String.join (["alice", "bob"].map (fun u => u ++ "\n"))) :=
  save_to_file_creates_parent "outputs/report.txt" ["alice", "bob"] ⟨[], []⟩
    (by decide) (by decide)

/-- C9. For every bare filename (no `/` anywhere in it), `save_to_file` fails
before writing anything — `os.path.dirname` yields `""` and the unconditional
`os.makedirs("")` raises `FileNotFoundError` — even though the actual parent
directory (the working directory) exists.  The error is returned before any
write: no `Except.ok` state is produced. -/
theorem save_to_file_bare_filename_fails (filename : String) (usernames : List String)
    (fs : FS) (h : '/' ∉ filename.data) :
    save_to_file filename usernames fs =
      Except.error "FileNotFoundError: [Errno 2] No such file or directory: ''" := by
  unfold save_to_file
  rw [dirname_eq_empty_of_no_slash h]
  rfl

/-- Witness for C9: saving to the bare filename `out.txt` fails even on a
filesystem whose working directory is intact. -/
theorem save_to_file_bare_filename_fails_witness :
    save_to_file "out.txt" ["alice"] ⟨["outputs"], []⟩ =
      Except.error "FileNotFoundError: [Errno 2] No such file or directory: ''" :=
  save_to_file_bare_filename_fails "out.txt" ["alice"] ⟨["outputs"], []⟩ (by decide)

/-- C7. Running the comparator twice on the same follower/following inputs
yields identical output files: both runs succeed and the contents of
`outputs/not_following_back.txt` and `outputs/fans.txt` after the second run
are exactly the contents after the first (the comparator is deterministic and
opens both files in overwrite mode). -/
theorem run_comparator_idempotent (F G : List String) (fs : FS) :
    ∃ fs1 fs2, run_comparator F G fs = Except.ok fs1 ∧
      run_comparator F G fs1 = Except.ok fs2 ∧
      fs2.readFile "outputs/not_following_back.txt" =
        fs1.readFile "outputs/not_following_back.txt" ∧
      fs2.readFile "outputs/fans.txt" = fs1.readFile "outputs/fans.txt" := by
  obtain ⟨fs1, h1, hr1, hf1⟩ := run_comparator_ok F G fs
  obtain ⟨fs2, h2, hr2, hf2⟩ := run_comparator_ok F G fs1
  exact ⟨fs1, fs2, h1, h2, by rw [hr1, hr2], by rw [hf1, hf2]⟩

/-- C10. `get_env_variable` raises its `ValueError` exactly when the variable
is unset (`None`) or set to the empty string: any falsy value counts as
missing, and the error text names the key. -/
theorem get_env_variable_error_iff (env : String → Option String) (key : String) :
    get_env_variable env key = Except.error (key ++ " not found in .env") ↔
      env key = none ∨ env key = some "" := by
  unfold get_env_variable
  cases henv : env key with
  | none => simp
  | some v =>
    by_cases hv : v = "" <;> simp [hv]

/-- C4. When either required credential is missing, `login_with_env` aborts
with the descriptive `ValueError` naming the missing key, and its trace is
empty: no network call (and no file operation) has been made. -/
theorem login_missing_credentials_aborts (w : World)
    (h : envMissing w.env "IG_USERNAME" ∨ envMissing w.env "IG_PASSWORD") :
    (login_with_env w).1 = [] ∧
    ∃ key, (key = "IG_USERNAME" ∨ key = "IG_PASSWORD") ∧ envMissing w.env key ∧
      (login_with_env w).2 = Except.error (key ++ " not found in .env") := by
  by_cases hu : envMissing w.env "IG_USERNAME"
  · have herr := (get_env_variable_error_iff w.env "IG_USERNAME").mpr hu
    unfold login_with_env
    rw [herr]
    exact ⟨rfl, "IG_USERNAME", Or.inl rfl, hu, rfl⟩
  · have hp : envMissing w.env "IG_PASSWORD" := h.resolve_left hu
    have herr := (get_env_variable_error_iff w.env "IG_PASSWORD").mpr hp
    have hok : ∃ v, get_env_variable w.env "IG_USERNAME" = Except.ok v := by
      unfold get_env_variable envMissing at *
      cases henv : w.env "IG_USERNAME" with
      | none => exact absurd (Or.inl henv) hu
      | some v =>
        by_cases hv : v = ""
        · exact absurd (Or.inr (hv ▸ henv)) hu
        · exact ⟨v, by simp [hv]⟩
    obtain ⟨v, hv⟩ := hok
    unfold login_with_env
    rw [hv, herr]
    exact ⟨rfl, "IG_PASSWORD", Or.inr rfl, hp, rfl⟩

/-- Witness for C4: with `IG_USERNAME` set to `""` and `IG_PASSWORD` unset,
the call aborts with an empty trace and the `IG_USERNAME` error. -/
theorem login_missing_credentials_aborts_witness :
    (login_with_env
      { env := fun k => if k = "IG_USERNAME" then some "" else none,
        sessionFileExists := true, loadOk := true, sessionLoginOk := true,
        probeOk := true, fresh := FreshLoginOutcome.ok, twoFactorLogin := none }).1 = [] ∧
    ∃ key, (key = "IG_USERNAME" ∨ key = "IG_PASSWORD") ∧
      envMissing (fun k => if k = "IG_USERNAME" then some "" else none) key ∧
      (login_with_env
        { env := fun k => if k = "IG_USERNAME" then some "" else none,
          sessionFileExists := true, loadOk := true, sessionLoginOk := true,
          probeOk := true, fresh := FreshLoginOutcome.ok, twoFactorLogin := none }).2 =
        Except.error (key ++ " not found in .env") :=
  login_missing_credentials_aborts _ (Or.inl (Or.inr (by simp)))

/-- C3. In every run where a session file exists and some step of its reuse
(loading, logging in with it, or the validity probe) raises, the session file
is removed and the run continues exactly as a run with no session file at
all: same remaining trace and same overall result, so the reuse failure is
never surfaced, the deletion happens before the fresh login's calls, and the
fresh-login path never loads the old session again. -/
theorem login_session_reuse_failure_recovers (w : World)
    (hu : ∃ v, get_env_variable w.env "IG_USERNAME" = Except.ok v)
    (hp : ∃ v, get_env_variable w.env "IG_PASSWORD" = Except.ok v)
    (hs : w.sessionFileExists = true)
    (hfail : (w.loadOk && w.sessionLoginOk && w.probeOk) = false) :
    Event.fileRemove ∈ (login_with_env w).1 ∧
    (∃ pre, (login_with_env w).1 =
        pre ++ (login_with_env { w with sessionFileExists := false }).1 ∧
      pre.getLast? = some Event.fileRemove) ∧
    (login_with_env w).2 = (login_with_env { w with sessionFileExists := false }).2 ∧
    Event.fileLoad ∉ (login_with_env { w with sessionFileExists := false }).1 := by
  obtain ⟨uv, hu⟩ := hu
  obtain ⟨pv, hp⟩ := hp
  have hatt : (attemptSavedSession w).2 = false := by
    unfold attemptSavedSession
    cases hl : w.loadOk <;> cases hsl : w.sessionLoginOk <;> cases hpr : w.probeOk <;>
      simp_all
  have hw : login_with_env w =
      ((attemptSavedSession w).1 ++ Event.fileRemove :: (freshLogin w).1,
        (freshLogin w).2) := by
    unfold login_with_env
    rw [hu, hp, hs]
    simp [hatt]
  have hw' : login_with_env { w with sessionFileExists := false } = freshLogin w := by
    unfold login_with_env
    rw [show ({ w with sessionFileExists := false } : World).env = w.env from rfl, hu, hp]
    rfl
  have hnoload : Event.fileLoad ∉ (freshLogin w).1 := by
    unfold freshLogin
    cases w.fresh with
    | ok => simp
    | err e => simp
    | twoFactorRequired => cases w.twoFactorLogin <;> simp
  refine ⟨?_, ⟨(attemptSavedSession w).1 ++ [Event.fileRemove], ?_, ?_⟩, ?_, ?_⟩
  · rw [hw]; simp
  · rw [hw, hw']; simp
  · simp
  · rw [hw, hw']
  · rw [hw']; exact hnoload

/-- Witness for C3: in `sessionFailWorld` (valid credentials, session file
present, probe fails) the run deletes the file and proceeds as a fresh run. -/
theorem login_session_reuse_failure_recovers_witness :
    Event.fileRemove ∈ (login_with_env sessionFailWorld).1 ∧
    (∃ pre, (login_with_env sessionFailWorld).1 =
        pre ++ (login_with_env { sessionFailWorld with sessionFileExists := false }).1 ∧
      pre.getLast? = some Event.fileRemove) ∧
    (login_with_env sessionFailWorld).2 =
      (login_with_env { sessionFailWorld with sessionFileExists := false }).2 ∧
    Event.fileLoad ∉
      (login_with_env { sessionFailWorld with sessionFileExists := false }).1 :=
  login_session_reuse_failure_recovers sessionFailWorld
    ⟨"user", rfl⟩ ⟨"pass", rfl⟩ rfl rfl

/-- C2. For every lookup oracle and every input list, the enrichment call
returns (never raises), its output has exactly one record per requested
username in input order, and the record at each position whose lookup failed
carries the requested username with all four metadata fields `none`. -/
theorem fetch_user_details_record_per_username
    (lookup : String → Except String UserProfile) (usernames : List String) :
    ∃ out, fetch_user_details lookup usernames = Except.ok out ∧
      out.user_data.length = usernames.length ∧
      ∀ (i : Nat) (u : String), usernames[i]? = some u → (lookup u).isOk = false →
        out.user_data[i]? = some (⟨u, none, none, none, none⟩ : UserRecord) := by
  refine ⟨_, rfl, ?_, ?_⟩
  · exact fetchLoop_length lookup usernames
  · exact fetchLoop_failed_record lookup usernames

/-- C6. For every lookup oracle and input list: the failure accumulator holds
exactly one `(username, error)` pair per failed lookup in input order; the
failure log is written if and only if some lookup failed; when written it is
one `username: error` line per failure; and the reported count is the number
of failures (reported only in that case). -/
theorem fetch_user_details_failure_log
    (lookup : String → Except String UserProfile) (usernames : List String) :
    ∃ out, fetch_user_details lookup usernames = Except.ok out ∧
      out.failed_users = usernames.filterMap
        (fun u => match lookup u with
          | Except.ok _ => none
          | Except.error e => some (u, e)) ∧
      (out.skippedFile ≠ none ↔ out.failed_users ≠ []) ∧
      out.skippedFile = (if out.failed_users.isEmpty then none
        else some (String.join
          (out.failed_users.map (fun p => p.1 ++ ": " ++ p.2 ++ "\n")))) ∧
      out.reportedCount =
        (if out.failed_users.isEmpty then none else some out.failed_users.length) := by
  refine ⟨_, rfl, fetchLoop_failed_users lookup usernames, ?_, rfl, rfl⟩
  by_cases h : (fetchLoop lookup usernames).2.isEmpty <;>
    simp_all [fetch_user_details, List.isEmpty_iff]

/-! ## Concrete checks of the spec's examples

These evaluate the embedded definitions on the spec's "testable properties"
inputs; they keep the embedding honest about computing what the script
computes. -/

/-- Spec example: followers `{alice, bob, carol}`, following
`{bob, carol, dave}` gives `not_following_back = [dave]` and
`not_followed_back = [alice]`. -/
theorem compare_spec_example :
    compare_followers_and_following ["alice", "bob", "carol"] ["bob", "carol", "dave"] =
      (["dave"], ["alice"]) := by decide

/-- Spec example: equal follower and following sets give two empty reports. -/
theorem compare_spec_example_equal :
    compare_followers_and_following ["x", "y"] ["y", "x"] = ([], []) := by decide

/-- Spec example: enriching `[a, b]` where only `b`'s lookup raises yields two
records, the one for `b` all-null, and a one-line failure log starting with
`b:`. -/
theorem fetch_spec_example :
    fetch_user_details exampleLookup ["a", "b"] = Except.ok
      { user_data := [⟨"a", some "Alice", some false, some 1, some true⟩,
          ⟨"b", none, none, none, none⟩]
        failed_users := [("b", "user not found")]
        skippedFile := some "b: user not found\n"
        reportedCount := some 1 } := by rfl
